import Mathlib

/-!
Shallow embedding of `transcription_app.py` (Transcripto), the single source
file that implements the transcription pipeline: audio capture and chunking
(`_record_audio`), the processing worker (`_process_audio`), the control-API
routes (`start_recording`, `stop_recording`, `start_transcription`,
`stop_transcription`) and the exporter (`format_transcript`).

Conventions of the embedding:
* Python strings are `String`; `str.strip()` is `pyStrip` (ASCII whitespace).
* The time-of-day part of a `datetime` is the structure `Time`; only the
  `%H:%M:%S` rendering matters to the code under study, so dates are omitted.
* Audio frames are represented by their sample count (`Nat`): the capture
  loop never inspects sample values, it only concatenates buffers, and
  `stream.read(CHUNK)` returns exactly `CHUNK` samples per call (mono).
* The Whisper result is a Python `dict`; attribute lookup on it is modelled
  by `dictGetattr` over the fixed set of `dict` method names, so that
  `getattr(result, 'confidence', 0.0)` is embedded faithfully.
* The outcome of running one chunk through the engines (transcribed text,
  diarization outcome, wall-clock time at processing) is a `ChunkResult`;
  the engines are external collaborators, so their outcomes are inputs of
  the model.
-/

namespace Transcripto

/-- ASCII whitespace characters removed by Python `str.strip()` with no
argument (the Unicode cases do not occur in any statement below). -/
def isPySpace (c : Char) : Bool :=
  c = ' ' || c = '\t' || c = '\n' || c = '\r' || c = '\x0b' || c = '\x0c'

/-- Python `s.strip()`: drop leading and trailing whitespace. -/
def pyStrip (s : String) : String :=
  String.mk (((s.toList.dropWhile isPySpace).reverse.dropWhile isPySpace).reverse)

/-- Time of day, the part of `datetime.now()` that the export format uses. -/
structure Time where
  hour : Nat
  minute : Nat
  second : Nat
deriving DecidableEq, Repr

/-- Two-digit zero padding, as `strftime` does for `%H`, `%M`, `%S`. -/
def pad2 (n : Nat) : String :=
  if n < 10 then "0" ++ toString n else toString n

/-- `datetime.strftime('%H:%M:%S')` on the stored timestamp
(`format_transcript`, line 353). -/
def strftimeHMS (t : Time) : String :=
  pad2 t.hour ++ ":" ++ pad2 t.minute ++ ":" ++ pad2 t.second

/-- Names of the attributes a Python `dict` instance exposes: its methods.
The keys stored in the dict are subscripts, not attributes, so `getattr`
on a dict never sees them. -/
def dictMethodNames : List String :=
  ["clear", "copy", "fromkeys", "get", "items", "keys", "pop", "popitem",
   "setdefault", "update", "values"]

/-- A non-default value `getattr` can find on a dict: a bound method. -/
inductive PyAttr where
  | boundMethod (name : String)
deriving DecidableEq, Repr

/-- Attribute lookup on the Whisper result, which is a plain `dict`. -/
def dictGetattr (name : String) : Option PyAttr :=
  if name ∈ dictMethodNames then some (.boundMethod name) else none

/-- `getattr(obj, name, default)` when `obj` is a dict: the attribute if the
dict type has one of that name, otherwise the default (a float, embedded as
`Rat`). -/
def getattrOrDefault (name : String) (dflt : Rat) : PyAttr ⊕ Rat :=
  match dictGetattr name with
  | some a => Sum.inl a
  | none => Sum.inr dflt

/-- The `transcript_entry` dict built in `_process_audio` (lines 298-303,
speaker possibly overwritten at line 312): `timestamp` (stored as an
isoformat string, kept here as its time of day), `text`, `confidence`,
`speaker` (Python `None` embedded as `Option.none` — the key is present
either way). -/
structure TranscriptEntry where
  timestamp : Time
  text : String
  confidence : PyAttr ⊕ Rat
  speaker : Option String
deriving DecidableEq, Repr

/-- The keys of the `transcript_entry` dict literal at lines 298-303: the
dict is created with exactly these four keys and no key is ever added
afterwards (line 312 only overwrites `speaker`). -/
def entryDictKeys : List String :=
  ["timestamp", "text", "confidence", "speaker"]

/-- Outcome of the diarization step for one chunk: the pipeline is absent
(`DIARIZATION_AVAILABLE` false or no pipeline loaded), the call raised an
exception caught at line 313, or it returned a list of speaker labels
(`itertracks` third components). -/
inductive DiarOutcome where
  | unavailable
  | failure
  | ok (labels : List String)
deriving DecidableEq, Repr

/-- The speaker label an entry ends up with (lines 302, 306-314): `None`
unless diarization is present, succeeds, and yields at least one track, in
which case `f"Speaker {speakers[0][2]}"`. -/
def speakerOf : DiarOutcome → Option String
  | .unavailable => none
  | .failure => none
  | .ok [] => none
  | .ok (l :: _) => some ("Speaker " ++ l)

/-- What the external engines made of one popped chunk: the Whisper
`result['text']`, the diarization outcome, and the wall-clock time when the
entry is built. -/
structure ChunkResult where
  text : String
  diar : DiarOutcome
  now : Time
deriving DecidableEq, Repr

/-- The entry `_process_audio` builds for a chunk whose stripped text is
non-empty (lines 298-314). -/
def mkEntry (c : ChunkResult) : TranscriptEntry :=
  { timestamp := c.now
    text := pyStrip c.text
    confidence := getattrOrDefault "confidence" 0
    speaker := speakerOf c.diar }

/-- Processing of one chunk (lines 296-320): if `result['text'].strip()` is
falsy (empty) nothing happens, otherwise the entry is built, appended and
emitted. -/
def processChunk (c : ChunkResult) : Option TranscriptEntry :=
  if pyStrip c.text = "" then none else some (mkEntry c)

/-- Processing a sequence of chunks in queue order: the list of entries
appended to `transcript_buffer`, in order. -/
def processChunks : List ChunkResult → List TranscriptEntry
  | [] => []
  | c :: rest =>
    match processChunk c with
    | some e => e :: processChunks rest
    | none => processChunks rest

/-- Processing with the emission trace: first component the entries appended
to `transcript_buffer`, second the payloads of the `new_transcript` events
emitted to subscribers (lines 317 and 320 — one append and one emit per
kept chunk, in the same order). -/
def processChunksEv : List ChunkResult → List TranscriptEntry × List TranscriptEntry
  | [] => ([], [])
  | c :: rest =>
    let p := processChunksEv rest
    match processChunk c with
    | some e => (e :: p.1, e :: p.2)
    | none => p

/-- The chunk positions (0-based queue order) that survive the empty-text
filter and contribute a transcript entry. -/
def keptPositions (cs : List ChunkResult) : List Nat :=
  (cs.enum.filter (fun p => decide (pyStrip p.2.text ≠ ""))).map Prod.fst

/-! ### Session state and control API -/

/-- The mutable application state of `TranscriptionApp` that the control
routes and the two worker loops touch: the recording flag, the chunk queue
(`audio_queue`, each queued chunk paired with the engine outcomes it will
receive), the transcript buffer, the session id and whether an audio stream
object is open. -/
structure AppState where
  is_recording : Bool
  audio_queue : List ChunkResult
  transcript_buffer : List TranscriptEntry
  session_id : Option String
  stream : Bool
deriving DecidableEq, Repr

/-- The state of a freshly constructed `TranscriptionApp` (lines 52-63). -/
def initialState : AppState :=
  { is_recording := false, audio_queue := [], transcript_buffer := [],
    session_id := none, stream := false }

/-- The `{'success': ..., 'message': ...}` JSON result every control route
returns. -/
structure ApiResult where
  success : Bool
  message : String
deriving DecidableEq, Repr

/-- `f"session_{int(time.time())}"` (line 185). -/
def mkSessionId (t : Nat) : String :=
  "session_" ++ toString t

/-- `start_transcription` (lines 173-200), state effect only: no-op when
already recording, otherwise set the flag, mint a session id from the
current epoch time and clear the transcript buffer (the worker threads it
spawns are modelled separately). -/
def start_transcription (t : Nat) (st : AppState) : AppState :=
  if st.is_recording then st
  else { st with is_recording := true
                 session_id := some (mkSessionId t)
                 transcript_buffer := [] }

/-- The `/api/start` route (lines 85-93): call `start_transcription` and
report success only when not already recording. -/
def start_recording (t : Nat) (st : AppState) : ApiResult × AppState :=
  if st.is_recording then
    ({ success := false, message := "Already recording" }, st)
  else
    ({ success := true, message := "Transcription started" },
     start_transcription t st)

/-- `stop_transcription` (lines 202-218): no-op when idle, otherwise clear
the flag and close the stream. The chunk queue and the transcript buffer
are not touched. -/
def stop_transcription (st : AppState) : AppState :=
  if st.is_recording then { st with is_recording := false, stream := false }
  else st

/-- The `/api/stop` route (lines 95-100): call `stop_transcription` and
report success only when currently recording. -/
def stop_recording (st : AppState) : ApiResult × AppState :=
  if st.is_recording then
    ({ success := true, message := "Transcription stopped" },
     stop_transcription st)
  else
    ({ success := false, message := "Not recording" }, st)

/-- The effect of `_record_audio` when `self.audio.open(...)` raises
(lines 222-230 and 261-263): the exception is caught, logged, and the
recording flag is reset; no stream is opened and no chunk is enqueued. -/
def record_audio_open_failed (st : AppState) : AppState :=
  { st with is_recording := false }

/-- A `start()` call on an app whose audio device cannot be opened: the
route runs, then the capture thread it spawned hits the open failure. -/
def startWithFailingDevice (t : Nat) (st : AppState) : ApiResult × AppState :=
  let r := start_recording t st
  (r.1, record_audio_open_failed r.2)

/-- The continuation condition of the `_process_audio` worker loop
(line 269): `self.is_recording or not self.audio_queue.empty()`. When this
is false the worker terminates. -/
def processLoopCond (st : AppState) : Bool :=
  st.is_recording || !st.audio_queue.isEmpty

/-- One pass of the `_process_audio` loop body per queued chunk, once
recording has stopped: pop the head chunk, build and append its entry if
its stripped text is non-empty, and continue until the queue is empty
(helper recursing on the popped prefix). -/
def drainAux : List ChunkResult → AppState → AppState
  | [], st => st
  | c :: rest, st =>
    drainAux rest
      { st with audio_queue := rest
                transcript_buffer :=
                  st.transcript_buffer ++ (processChunk c).toList }

/-- The `_process_audio` loop (lines 265-334) from the point where
`is_recording` is false: the loop condition reduces to "queue non-empty",
so the worker pops and processes every remaining chunk, then exits. -/
def drainLoop (st : AppState) : AppState :=
  drainAux st.audio_queue st

/-! ### Capture-side chunk assembly -/

/-- `self.CHUNK` (line 45): frames per `stream.read` call; with one channel
this is also the sample count of one read. -/
def CHUNK : Nat := 1024

/-- `self.RATE` (line 48): sample rate in Hz. -/
def RATE : Nat := 16000

/-- `self.RECORD_SECONDS` (line 49): nominal chunk duration. -/
def RECORD_SECONDS : Nat := 30

/-- `frames_per_chunk = int(self.RATE * self.RECORD_SECONDS / self.CHUNK)`
(line 235): Python `int()` truncates, which is `Nat` division here. -/
def frames_per_chunk : Nat := RATE * RECORD_SECONDS / CHUNK

/-- One iteration of the `_record_audio` capture loop (lines 238-254),
frames represented by their sample counts: append the read to the buffer,
bump `frame_count`, and when `frame_count >= frames_per_chunk` emit the
concatenated buffer as one chunk and reset both. State is
`(buffered sample total, frame_count)`; the output is the sample count of
the emitted chunk, if any. -/
def assembleStep (st : Nat × Nat) (frame : Nat) : (Nat × Nat) × Option Nat :=
  let buf := st.1 + frame
  let cnt := st.2 + 1
  if frames_per_chunk ≤ cnt then ((0, 0), some buf) else ((buf, cnt), none)

/-- Run the capture loop over a sequence of reads: the sample counts of the
chunks pushed to `audio_queue`, in order, plus the final assembler state. -/
def assembleRun : List Nat → Nat × Nat → List Nat × (Nat × Nat)
  | [], st => ([], st)
  | f :: fs, st =>
    match assembleStep st f with
    | (st1, some chunk) =>
      let r := assembleRun fs st1
      (chunk :: r.1, r.2)
    | (st1, none) => assembleRun fs st1

/-! ### Exporter -/

/-- `entry.get('speaker', 'Speaker')` followed by the f-string render
(lines 354 and 357). Every entry built by `_process_audio` stores the
`speaker` key explicitly (Python `None` when no label), so `dict.get` finds
the key and the `'Speaker'` default never applies; an f-string renders the
Python value `None` as the text `None`. -/
def speakerDisplay : Option String → String
  | some s => s
  | none => "None"

/-- Modelled from the spec: the rendering the spec describes for the
speaker slot, `<speaker-or-default>` with default label `Speaker` when the
label is absent. Stated only for comparison with `speakerDisplay`, the
rendering the source actually performs. -/
def speakerDisplaySpec (sp : Option String) : String :=
  sp.getD "Speaker"

/-- One body line of the export,
`f"[{timestamp}] {speaker}: {text}"` (lines 352-357). -/
def formatLine (e : TranscriptEntry) : String :=
  "[" ++ strftimeHMS e.timestamp ++ "] " ++ speakerDisplay e.speaker
    ++ ": " ++ e.text

/-- The header block of `format_transcript` (lines 341-350); `genTime` is
the `%Y-%m-%d %H:%M:%S` rendering of `datetime.now()`, and a `None`
session id would be rendered by the f-string as `None`. -/
def headerLines (genTime : String) (sid : Option String) (n : Nat) :
    List String :=
  ["Advanced Audio Transcript",
   String.mk (List.replicate 50 '='),
   "Generated: " ++ genTime,
   "Session ID: " ++ (match sid with | some s => s | none => "None"),
   "Total Entries: " ++ toString n,
   "",
   "--- TRANSCRIPT ---",
   ""]

/-- `format_transcript` (lines 336-359): the fallback string on an empty
buffer, otherwise the header block followed by one body line per entry in
buffer order, joined with newlines. -/
def format_transcript (genTime : String) (sid : Option String)
    (buf : List TranscriptEntry) : String :=
  if buf.isEmpty then "No transcript data available."
  else
    String.intercalate "\n"
      (headerLines genTime sid buf.length ++ buf.map formatLine)

/-! ### General lemmas about the processing loop -/

theorem processChunks_cons (c : ChunkResult) (cs : List ChunkResult) :
    processChunks (c :: cs) = (processChunk c).toList ++ processChunks cs := by
  cases h : processChunk c <;> simp [processChunks, h]

theorem processChunks_eq_filter (cs : List ChunkResult) :
    processChunks cs
      = (cs.filter (fun c => decide (pyStrip c.text ≠ ""))).map mkEntry := by
  induction cs with
  | nil => rfl
  | cons c rest ih =>
    by_cases h : pyStrip c.text = "" <;>
      simp [processChunks, processChunk, h, ih]

theorem processChunksEv_eq (cs : List ChunkResult) :
    processChunksEv cs = (processChunks cs, processChunks cs) := by
  induction cs with
  | nil => rfl
  | cons c rest ih =>
    cases h : processChunk c <;> simp [processChunksEv, processChunks, h, ih]

theorem drainAux_spec (q : List ChunkResult) :
    ∀ st : AppState, st.audio_queue = q →
      drainAux q st
        = { st with
            audio_queue := [],
            transcript_buffer := st.transcript_buffer ++ processChunks q } := by
  induction q with
  | nil =>
    intro st h
    cases st
    simp_all [drainAux, processChunks]
  | cons c rest ih =>
    intro st h
    rw [drainAux, ih _ rfl]
    simp [processChunks_cons, List.append_assoc]

theorem drainLoop_spec (st : AppState) :
    drainLoop st
      = { st with
          audio_queue := [],
          transcript_buffer :=
            st.transcript_buffer ++ processChunks st.audio_queue } :=
  drainAux_spec st.audio_queue st rfl

theorem keptPositions_sublist (cs : List ChunkResult) :
    List.Sublist (keptPositions cs) (List.range cs.length) := by
  have h1 :=
    (List.filter_sublist (p := fun p : Nat × ChunkResult =>
      decide (pyStrip p.2.text ≠ "")) cs.enum).map Prod.fst
  rw [List.enum_map_fst] at h1
  exact h1

theorem keptPositions_pairwise (cs : List ChunkResult) :
    List.Pairwise (· < ·) (keptPositions cs) :=
  (List.pairwise_lt_range cs.length).sublist (keptPositions_sublist cs)

theorem keptPositions_length_aux (cs : List ChunkResult) : ∀ n : Nat,
    ((List.enumFrom n cs).filter (fun p =>
        decide (pyStrip p.2.text ≠ ""))).length
      = (cs.filter (fun c => decide (pyStrip c.text ≠ ""))).length := by
  induction cs with
  | nil => intro n; rfl
  | cons c rest ih =>
    intro n
    by_cases h : pyStrip c.text = "" <;>
      simp [List.enumFrom_cons, List.filter_cons, h] <;>
      simpa using ih (n + 1)

theorem keptPositions_length (cs : List ChunkResult) :
    (keptPositions cs).length = (processChunks cs).length := by
  rw [processChunks_eq_filter]
  simpa [keptPositions, List.enum] using keptPositions_length_aux cs 0

/-! ### Claim theorems -/

/-- C8: a `start()` call made while a session is Recording returns the
structured failure `{success: false}` and leaves the existing session —
the whole application state, in particular `session_id` and
`transcript_buffer` — exactly as it was before the call. -/
theorem start_while_recording_rejected (t : Nat) (st : AppState)
    (h : st.is_recording = true) :
    (start_recording t st).1.success = false ∧
    (start_recording t st).2 = st := by
  simp [start_recording, h]

/-- Witness for C8 at a concrete recording state. -/
theorem start_while_recording_rejected_witness :
    (start_recording 7
        { is_recording := true
          audio_queue := []
          transcript_buffer := []
          session_id := some "session_3"
          stream := true }).1.success = false ∧
    (start_recording 7
        { is_recording := true
          audio_queue := []
          transcript_buffer := []
          session_id := some "session_3"
          stream := true }).2
      = { is_recording := true
          audio_queue := []
          transcript_buffer := []
          session_id := some "session_3"
          stream := true } :=
  start_while_recording_rejected 7 _ rfl

/-- C9: a `stop()` call made while the session is Idle returns the
structured failure `{success: false}` (no exception is modelled or needed:
`stop_recording` is total) and leaves the recording flag, the session id
and the transcript buffer — the whole state — unchanged. -/
theorem stop_while_idle_rejected (st : AppState)
    (h : st.is_recording = false) :
    (stop_recording st).1.success = false ∧
    (stop_recording st).2 = st := by
  simp [stop_recording, h]

/-- Witness for C9 at a concrete idle state. -/
theorem stop_while_idle_rejected_witness :
    (stop_recording initialState).1.success = false ∧
    (stop_recording initialState).2 = initialState :=
  stop_while_idle_rejected initialState rfl

/-- C5: a chunk whose transcription result is empty or whitespace-only
after trimming contributes nothing — no `TranscriptEntry` is appended and
no `new_transcript` event is emitted; in particular a session fed three
chunks where the middle one strips to empty ends with exactly the two
entries of the outer chunks, in that order, both in the buffer and on the
event channel. -/
theorem empty_text_chunk_discarded (c : ChunkResult) (cs : List ChunkResult)
    (h : pyStrip c.text = "") :
    processChunksEv (c :: cs) = processChunksEv cs ∧
    ∀ c1 c3 : ChunkResult, pyStrip c1.text ≠ "" → pyStrip c3.text ≠ "" →
      processChunksEv [c1, c, c3]
        = ([mkEntry c1, mkEntry c3], [mkEntry c1, mkEntry c3]) := by
  constructor
  · simp [processChunksEv, processChunk, h]
  · intro c1 c3 h1 h3
    simp [processChunksEv, processChunk, h, h1, h3]

/-- Witness for C5: a concrete three-chunk session whose middle chunk is
whitespace-only. -/
theorem empty_text_chunk_discarded_witness :
    pyStrip " \t " = "" ∧
    processChunksEv
        [⟨"hello", .unavailable, ⟨0, 0, 1⟩⟩,
         ⟨" \t ", .unavailable, ⟨0, 0, 2⟩⟩,
         ⟨" world ", .failure, ⟨0, 0, 3⟩⟩]
      = ([mkEntry ⟨"hello", .unavailable, ⟨0, 0, 1⟩⟩,
          mkEntry ⟨" world ", .failure, ⟨0, 0, 3⟩⟩],
         [mkEntry ⟨"hello", .unavailable, ⟨0, 0, 1⟩⟩,
          mkEntry ⟨" world ", .failure, ⟨0, 0, 3⟩⟩]) :=
  ⟨by decide,
   (empty_text_chunk_discarded ⟨" \t ", .unavailable, ⟨0, 0, 2⟩⟩ []
      (by decide)).2 _ _ (by decide) (by decide)⟩

/-- C6: for a chunk with non-empty stripped text whose diarization call
raises, the exception is caught (line 313) and the entry is still built
with no speaker label, appended to the transcript buffer and emitted to
subscribers — a diarization failure never discards the transcription. -/
theorem diarization_failure_keeps_entry (c : ChunkResult)
    (cs : List ChunkResult) (h : pyStrip c.text ≠ "")
    (hd : c.diar = .failure) :
    processChunk c
      = some { timestamp := c.now, text := pyStrip c.text,
               confidence := getattrOrDefault "confidence" 0,
               speaker := none } ∧
    processChunksEv (c :: cs)
      = (mkEntry c :: (processChunksEv cs).1,
         mkEntry c :: (processChunksEv cs).2) := by
  constructor
  · simp [processChunk, h, mkEntry, hd, speakerOf]
  · simp [processChunksEv, processChunk, h]

/-- Witness for C6: a concrete chunk whose diarization call fails. -/
theorem diarization_failure_keeps_entry_witness :
    pyStrip "hi there" ≠ "" ∧
    processChunk ⟨"hi there", .failure, ⟨9, 5, 0⟩⟩
      = some { timestamp := ⟨9, 5, 0⟩, text := "hi there",
               confidence := getattrOrDefault "confidence" 0,
               speaker := none } ∧
    processChunksEv [⟨"hi there", .failure, ⟨9, 5, 0⟩⟩]
      = ([mkEntry ⟨"hi there", .failure, ⟨9, 5, 0⟩⟩],
         [mkEntry ⟨"hi there", .failure, ⟨9, 5, 0⟩⟩]) :=
  ⟨by decide,
   (diarization_failure_keeps_entry ⟨"hi there", .failure, ⟨9, 5, 0⟩⟩ []
      (by decide) rfl).1,
   (diarization_failure_keeps_entry ⟨"hi there", .failure, ⟨9, 5, 0⟩⟩ []
      (by decide) rfl).2⟩

/-- C10: `getattr(result, 'confidence', 0.0)` on the Whisper result — a
plain dict, which has no `confidence` attribute — always returns the
default, so every entry appended to the transcript buffer (hence every
published entry and every export input) carries confidence 0.0. -/
theorem confidence_always_zero (cs : List ChunkResult)
    (e : TranscriptEntry) (he : e ∈ processChunks cs) :
    dictGetattr "confidence" = none ∧ e.confidence = Sum.inr 0 := by
  refine ⟨by decide, ?_⟩
  rw [processChunks_eq_filter] at he
  rcases List.mem_map.1 he with ⟨c, _, rfl⟩
  show getattrOrDefault "confidence" 0 = Sum.inr 0
  decide

/-- Witness for C10: a concrete entry produced from one chunk. -/
theorem confidence_always_zero_witness :
    mkEntry ⟨"hello", .unavailable, ⟨0, 0, 1⟩⟩
        ∈ processChunks [⟨"hello", .unavailable, ⟨0, 0, 1⟩⟩] ∧
    dictGetattr "confidence" = none ∧
    (mkEntry ⟨"hello", .unavailable, ⟨0, 0, 1⟩⟩).confidence = Sum.inr 0 :=
  ⟨by decide,
   confidence_always_zero [⟨"hello", .unavailable, ⟨0, 0, 1⟩⟩] _ (by decide)⟩

set_option maxRecDepth 4000 in
/-- C1 (code defect): the export does render a header block followed by
one body line per entry in order, but an entry with an absent speaker
label is rendered `[HH:MM:SS] None: hello`, not `[HH:MM:SS] Speaker:
hello`: the `'Speaker'` default of `entry.get('speaker', 'Speaker')` is
dead, because `_process_audio` always stores the `speaker` key (Python
`None` when there is no label), so `get` finds the key and the f-string
prints `None`. -/
theorem export_speaker_default_dead :
    processChunk ⟨"hello", .unavailable, ⟨10, 30, 0⟩⟩
      = some { timestamp := ⟨10, 30, 0⟩, text := "hello",
               confidence := Sum.inr 0, speaker := none } ∧
    format_transcript "2026-10-12 00:00:00" (some "session_7")
        [mkEntry ⟨"hello", .unavailable, ⟨10, 30, 0⟩⟩,
         mkEntry ⟨"world", .unavailable, ⟨10, 30, 5⟩⟩]
      = String.intercalate "\n"
          ["Advanced Audio Transcript",
           String.mk (List.replicate 50 '='),
           "Generated: 2026-10-12 00:00:00",
           "Session ID: session_7",
           "Total Entries: 2",
           "",
           "--- TRANSCRIPT ---",
           "",
           "[10:30:00] None: hello",
           "[10:30:05] None: world"] ∧
    speakerDisplay none = "None" ∧
    speakerDisplaySpec none = "Speaker" ∧
    speakerDisplay none ≠ speakerDisplaySpec none := by decide

/-- C2 counterexample: from the initial idle state, with a device that
fails to open, the `start()` route itself reports success — and the state
has already transitioned to Recording before the capture thread hits the
failure — contradicting the claim that the call returns a failure and the
state never leaves Idle. -/
theorem start_failing_device_counterexample :
    (startWithFailingDevice 0 initialState).1.success = true ∧
    ((start_recording 0 initialState).2).is_recording = true := by decide

/-- C2 (amended): when the audio device cannot be opened, `start()` has
already returned success and transitioned the session to Recording; the
capture thread's exception handler then resets the flag, so afterwards the
state is Idle again and — the queue being empty — the worker loop's
continuation condition is false, leaving no capture or processing task
running. The `start()` call itself never surfaces the failure. -/
theorem start_failing_device_amended (t : Nat) (st : AppState)
    (h : st.is_recording = false) (hq : st.audio_queue = []) :
    (startWithFailingDevice t st).1.success = true ∧
    ((start_recording t st).2).is_recording = true ∧
    ((startWithFailingDevice t st).2).is_recording = false ∧
    processLoopCond (startWithFailingDevice t st).2 = false := by
  simp [startWithFailingDevice, start_recording, start_transcription,
        record_audio_open_failed, processLoopCond, h, hq]

/-- Witness for C2 (amended) at the initial state. -/
theorem start_failing_device_amended_witness :
    initialState.is_recording = false ∧ initialState.audio_queue = [] ∧
    ((startWithFailingDevice 3 initialState).1.success = true ∧
     ((start_recording 3 initialState).2).is_recording = true ∧
     ((startWithFailingDevice 3 initialState).2).is_recording = false ∧
     processLoopCond (startWithFailingDevice 3 initialState).2 = false) :=
  ⟨rfl, rfl, start_failing_device_amended 3 initialState rfl rfl⟩

/-- C3 counterexample: entries carry no sequence number at all — the
`transcript_entry` dict is created with exactly the keys `timestamp`,
`text`, `confidence`, `speaker`, and no key is ever added afterwards, so
even the concrete entry produced for a session's first chunk (`isSome`
below) has no `sequence` key to receive a copied chunk sequence number
(the code attaches no sequence numbers to chunks either). -/
theorem entry_has_no_sequence_field :
    (processChunk ⟨"hello", .unavailable, ⟨0, 0, 1⟩⟩).isSome = true ∧
    "sequence" ∉ entryDictKeys := by decide

/-- C3 (amended): entries carry no explicit sequence-number field; chunk
order is nevertheless preserved positionally: the single worker consumes
the queue in FIFO order, the resulting entries are exactly the chunks with
non-empty stripped text mapped in order, and the 0-based positions of the
kept chunks form a strictly increasing subset of the positions of all
emitted chunks — sparse exactly where empty-text chunks were discarded. -/
theorem entry_order_positional (cs : List ChunkResult) :
    List.Pairwise (· < ·) (keptPositions cs) ∧
    keptPositions cs ⊆ List.range cs.length ∧
    processChunks cs
      = (cs.filter (fun c => decide (pyStrip c.text ≠ ""))).map mkEntry ∧
    (keptPositions cs).length = (processChunks cs).length :=
  ⟨keptPositions_pairwise cs, (keptPositions_sublist cs).subset,
   processChunks_eq_filter cs, keptPositions_length cs⟩

set_option maxRecDepth 4000 in
/-- C4 counterexample: feeding exactly `frames_per_chunk` = 468 reads of
`CHUNK` = 1024 samples emits one chunk of 479232 samples, strictly fewer
than `RECORD_SECONDS * RATE` = 480000: the assembler counts frames against
`int(RATE * RECORD_SECONDS / CHUNK)`, whose truncation drops the
fractional frame, so emission happens before duration × rate samples have
accumulated. -/
theorem chunk_below_nominal_samples :
    (assembleRun (List.replicate frames_per_chunk CHUNK) (0, 0)).1
      = [479232] ∧
    479232 < RECORD_SECONDS * RATE := by decide

/-- C4 (amended): the assembler emits as soon as the accumulated frame
count reaches `frames_per_chunk = int(RATE * RECORD_SECONDS / CHUNK)`
(= 468) and then resets its accumulator, so with full 1024-sample reads
every emitted chunk contains exactly `frames_per_chunk * CHUNK` = 479232
samples — 768 samples short of the nominal duration × rate = 480000
because the frame budget is truncated to an integer. -/
theorem chunk_samples_exact (fs : List Nat) (hf : ∀ f ∈ fs, f = CHUNK) :
    ∀ n ∈ (assembleRun fs (0, 0)).1, n = frames_per_chunk * CHUNK := by
  have key : ∀ (gs : List Nat) (st : Nat × Nat),
      (∀ f ∈ gs, f = CHUNK) → st.1 = st.2 * CHUNK →
      st.2 < frames_per_chunk →
      ∀ n ∈ (assembleRun gs st).1, n = frames_per_chunk * CHUNK := by
    intro gs
    induction gs with
    | nil => intro st _ _ _ n hn; simp [assembleRun] at hn
    | cons f rest ih =>
      intro st hall hbuf hcnt n hn
      have hf0 : f = CHUNK := hall f (List.mem_cons_self ..)
      have hrest : ∀ g ∈ rest, g = CHUNK := fun g hg =>
        hall g (List.mem_cons_of_mem _ hg)
      by_cases hle : frames_per_chunk ≤ st.2 + 1
      · have hemit : st.2 + 1 = frames_per_chunk :=
          Nat.le_antisymm hcnt hle
        simp only [assembleRun, assembleStep, if_pos hle] at hn
        rcases List.mem_cons.1 hn with h1 | h2
        · subst h1
          rw [hbuf, hf0, ← hemit]
          ring
        · exact ih (0, 0) hrest rfl (by decide) n h2
      · simp only [assembleRun, assembleStep, if_neg hle] at hn
        refine ih (st.1 + f, st.2 + 1) hrest ?_ (Nat.lt_of_not_le hle) n hn
        simp [hbuf, hf0]
        ring
  exact key fs (0, 0) hf rfl (by decide)

set_option maxRecDepth 4000 in
/-- Witness for C4 (amended) on the concrete run of 468 full reads. -/
theorem chunk_samples_exact_witness :
    (479232 : Nat)
        ∈ (assembleRun (List.replicate frames_per_chunk CHUNK) (0, 0)).1 ∧
    (479232 : Nat) = frames_per_chunk * CHUNK :=
  ⟨by decide,
   chunk_samples_exact (List.replicate frames_per_chunk CHUNK)
     (by decide) 479232 (by decide)⟩

/-- C7: the worker's loop condition is `is_recording or queue non-empty`;
`stop()` on a recording session does not clear the queue, so the worker
keeps popping — the condition stays true exactly while chunks remain — and
once the drain completes the queue is empty, the entries of the remaining
chunks have been appended, the loop condition is false (the worker
terminates) and the session is Idle. -/
theorem stop_then_drain (st : AppState) (h : st.is_recording = true) :
    ((stop_recording st).2).audio_queue = st.audio_queue ∧
    processLoopCond (stop_recording st).2 = !st.audio_queue.isEmpty ∧
    (drainLoop (stop_recording st).2).audio_queue = [] ∧
    (drainLoop (stop_recording st).2).is_recording = false ∧
    processLoopCond (drainLoop (stop_recording st).2) = false ∧
    (drainLoop (stop_recording st).2).transcript_buffer
      = st.transcript_buffer ++ processChunks st.audio_queue := by
  simp [stop_recording, stop_transcription, h, drainLoop_spec,
        processLoopCond]

/-- Witness for C7 at a concrete recording state holding one buffered
chunk. -/
theorem stop_then_drain_witness :
    (drainLoop (stop_recording
        { is_recording := true
          audio_queue := [⟨"ok", .unavailable, ⟨1, 0, 0⟩⟩]
          transcript_buffer := []
          session_id := some "session_5"
          stream := true }).2).audio_queue = [] ∧
    (drainLoop (stop_recording
        { is_recording := true
          audio_queue := [⟨"ok", .unavailable, ⟨1, 0, 0⟩⟩]
          transcript_buffer := []
          session_id := some "session_5"
          stream := true }).2).is_recording = false ∧
    (drainLoop (stop_recording
        { is_recording := true
          audio_queue := [⟨"ok", .unavailable, ⟨1, 0, 0⟩⟩]
          transcript_buffer := []
          session_id := some "session_5"
          stream := true }).2).transcript_buffer
      = [mkEntry ⟨"ok", .unavailable, ⟨1, 0, 0⟩⟩] := by
  have h := stop_then_drain
    { is_recording := true
      audio_queue := [⟨"ok", .unavailable, ⟨1, 0, 0⟩⟩]
      transcript_buffer := []
      session_id := some "session_5"
      stream := true } rfl
  refine ⟨h.2.2.1, h.2.2.2.1, ?_⟩
  rw [h.2.2.2.2.2]
  decide

end Transcripto
